import Mathlib

/-!
Verification development for the real-estate scraping-and-sentiment pipeline.

Shallow embedding conventions:
* Python `float` arithmetic on sentiment scores is modelled with exact
  rationals (`ℚ`); every numeric literal in the source (0.8, 0.3, 0.1, …)
  is an exact decimal, and every property proved below depends only on
  comparisons with comfortable margins.
* Python `str` is modelled by `String`; the Python substring test
  `needle in haystack` is `pyIn`, `str.lower()` is `pyLower` (the source
  only lowercases ASCII text), `str.strip()` is `pyStrip`, `text[:n]` is
  `pyTake n` and `len` is `pyLen` (indexing by code points, as CPython
  does).
* External effectful collaborators (the Anthropic client, `nltk`, HTTP
  fetches) are modelled as explicit oracle parameters; the repository's
  own control flow around them is translated faithfully.
-/

/-- Does `needle` occur contiguously in the character list, starting at any
position (including the empty occurrence)? -/
def pyInAux (needle : List Char) : List Char → Bool
  | [] => needle.isPrefixOf []
  | c :: rest => needle.isPrefixOf (c :: rest) || pyInAux needle rest

/-- Python's substring test `needle in haystack`. -/
def pyIn (needle haystack : String) : Bool :=
  pyInAux needle.toList haystack.toList

/-- Python `str.lower()` (the source only lowercases ASCII text). -/
def pyLower (s : String) : String :=
  String.mk (s.toList.map Char.toLower)

/-- Python `text[:n]`: the first `n` code points. -/
def pyTake (n : ℕ) (s : String) : String :=
  String.mk (s.toList.take n)

/-- Python `str.strip()`: remove leading and trailing whitespace. -/
def pyStrip (s : String) : String :=
  String.mk (((s.toList.dropWhile Char.isWhitespace).reverse.dropWhile
      Char.isWhitespace).reverse)

/-- Python `len(s)` (CPython counts code points). -/
def pyLen (s : String) : ℕ :=
  s.toList.length

/-- Python's two-argument `min` on floats, modelled on `ℚ`. -/
def pyMin (a b : ℚ) : ℚ :=
  if b < a then b else a

/-- Python's two-argument `max` on floats, modelled on `ℚ`. -/
def pyMax (a b : ℚ) : ℚ :=
  if a < b then b else a

theorem pyMin_eq_min (a b : ℚ) : pyMin a b = min a b := by
  unfold pyMin
  rcases lt_or_ge b a with h | h
  · simp [h, min_eq_right h.le]
  · simp [not_lt.mpr h, min_eq_left h]

theorem pyMax_eq_max (a b : ℚ) : pyMax a b = max a b := by
  unfold pyMax
  rcases lt_or_ge a b with h | h
  · simp [h, max_eq_right h.le]
  · simp [not_lt.mpr h, max_eq_left h]

/-- The three sentiment labels used throughout the pipeline. -/
inductive Sentiment where
  | Positive
  | Negative
  | Neutral
deriving DecidableEq, Repr

/-- Structured market snapshot returned by
`EnhancedSentimentAnalyzer.analyze_market_context` and its fallbacks
(`src/preprocessing/claude_sentiment_analyzer.py`). -/
structure MarketContext where
  market_sentiment : String
  key_trends : List String
  price_direction : String
  market_activity : String
  context_summary : String
  price_range : String
  investment_outlook : String
  risk_factors : List String
  growth_drivers : List String
deriving DecidableEq, Repr

/-- Result dictionary shape shared by all sentiment-analysis paths of
`EnhancedSentimentAnalyzer`.  `market_context` models the optional
`result['market_context']` key added on the comprehensive path. -/
structure SentimentResult where
  sentiment : Sentiment
  score : ℚ
  confidence : ℚ
  reason : String
  analysis_type : String
  market_context : Option MarketContext := none
deriving DecidableEq, Repr

/-- Positive keyword list of `_fallback_single_analysis`
(`claude_sentiment_analyzer.py:691`). -/
def fallback_positive_keywords : List String :=
  ["good", "great", "excellent", "amazing", "fantastic", "wonderful",
   "buy", "invest", "opportunity", "profitable", "growth", "rising",
   "affordable", "value", "deal", "recommended", "bullish", "optimistic",
   "beautiful", "spacious", "convenient", "prime", "luxury", "modern"]

/-- Negative keyword list of `_fallback_single_analysis`
(`claude_sentiment_analyzer.py:698`). -/
def fallback_negative_keywords : List String :=
  ["bad", "terrible", "awful", "horrible", "disappointing", "overpriced",
   "expensive", "risky", "avoid", "falling", "crash", "bubble",
   "bearish", "pessimistic", "declining", "loss", "fraud", "scam",
   "small", "cramped", "noisy", "traffic", "pollution", "old"]

/-- `EnhancedSentimentAnalyzer._fallback_single_analysis`
(`claude_sentiment_analyzer.py:687-726`): deterministic keyword-count
sentiment strategy. -/
def _fallback_single_analysis (text : String) : SentimentResult :=
  let text_lower := pyLower text
  let positive_score : ℕ := fallback_positive_keywords.countP (fun w => pyIn w text_lower)
  let negative_score : ℕ := fallback_negative_keywords.countP (fun w => pyIn w text_lower)
  let sentiment_score : Sentiment × ℚ :=
    if positive_score > negative_score then
      (Sentiment.Positive, pyMin (8/10) (3/10 + (positive_score : ℚ) * (1/10)))
    else if negative_score > positive_score then
      (Sentiment.Negative, pyMax (-(8/10)) (-(3/10) - (negative_score : ℚ) * (1/10)))
    else
      (Sentiment.Neutral, 0)
  let confidence : ℚ :=
    pyMin (6/10) ((((positive_score : ℤ) - (negative_score : ℤ)).natAbs : ℚ) * (15/100))
  { sentiment := sentiment_score.1
    score := sentiment_score.2
    confidence := confidence
    reason := "Keyword-based analysis (P:" ++ toString positive_score ++
              ", N:" ++ toString negative_score ++ ")"
    analysis_type := "fallback" }

/-! ## Instagram scraper (`src/scrapers/instagram_scraper.py`)

Items are Python dicts; the relevance/deduplication logic and the claims
below only inspect the `text` field and the `metadata['demo']` marker
(present and `True` exactly on synthetically generated demo items), so an
item is modelled by those two fields. -/

/-- One scraped (or synthesized) Instagram item. -/
structure InstaItem where
  text : String
  demo : Bool
deriving DecidableEq, Repr

/-- Real-estate keyword list of `InstagramScraper._is_location_relevant`
(`instagram_scraper.py:743`). -/
def real_estate_keywords : List String :=
  ["property", "real estate", "apartment", "flat", "house", "villa",
   "investment", "buy", "sell", "rent", "home", "residence",
   "builder", "construction", "realty", "project", "development",
   "bhk", "sqft", "gated community", "amenities", "price", "cost",
   "booking", "launch", "ready to move", "under construction",
   "possession", "rera", "approved", "vastu", "furnished"]

/-- Hyderabad-context keyword list of `InstagramScraper._is_location_relevant`
(`instagram_scraper.py:753`). -/
def hyderabad_keywords : List String :=
  ["hyderabad", "telangana", "secunderabad", "cyberabad",
   "gachibowli", "hitech city", "jubilee hills", "banjara hills",
   "kondapur", "madhapur", "kukatpally", "miyapur", "begumpet",
   "financial district", "nanakramguda", "manikonda", "kokapet"]

/-- `InstagramScraper._is_location_relevant` (`instagram_scraper.py:731-767`):
accept on a direct mention of the queried location, otherwise require a
real-estate keyword and a Hyderabad-context keyword. -/
def _is_location_relevant (text location : String) : Bool :=
  if text = "" then false
  else
    let text_lower := pyLower text
    let location_lower := pyLower location
    if pyIn location_lower text_lower then true
    else
      let has_real_estate := real_estate_keywords.any (fun k => pyIn k text_lower)
      let has_hyderabad_context := hyderabad_keywords.any (fun k => pyIn k text_lower)
      has_real_estate && has_hyderabad_context

/-- The duplicate-detection key of `_clean_and_deduplicate_results`:
`result['text'][:150].lower().strip()`. -/
def content_hash (text : String) : String :=
  pyStrip (pyLower (pyTake 150 text))

/-- Loop body of `InstagramScraper._clean_and_deduplicate_results`
(`instagram_scraper.py:769-787`), with the mutable `seen_texts` set made
explicit. -/
def cleanDedupAux : List InstaItem → List String → List InstaItem
  | [], _ => []
  | r :: rest, seen_texts =>
    let h := content_hash r.text
    let is_substantial := 15 < pyLen (pyStrip r.text)
    let is_unique := ¬ (seen_texts.contains h)
    let is_relevant := _is_location_relevant r.text "hyderabad"
    if is_substantial ∧ is_unique ∧ is_relevant then
      r :: cleanDedupAux rest (h :: seen_texts)
    else
      cleanDedupAux rest seen_texts

/-- `InstagramScraper._clean_and_deduplicate_results`. -/
def _clean_and_deduplicate_results (results : List InstaItem) : List InstaItem :=
  cleanDedupAux results []

/-- `InstagramScraper._generate_trending_demo_data` (`instagram_scraper.py:973-988`):
one synthetic trending post (its dict carries `metadata['demo'] = True`). -/
def _generate_trending_demo_data (location : String) : List InstaItem :=
  [{ text := "🔥 Trending: " ++ location ++ " real estate market showing strong growth! Prices up 15% YoY. Infrastructure development attracting investors. Metro connectivity boosting demand significantly."
     demo := true }]

/-- `InstagramScraper._explore_real_estate_content` (`instagram_scraper.py:633-637`):
placeholder, always empty. -/
def _explore_real_estate_content (_location : String) : List InstaItem := []

/-- `InstagramScraper._discover_trending_real_estate_content`
(`instagram_scraper.py:639-642`): unconditionally synthesizes trending demo
content. -/
def _discover_trending_real_estate_content (location : String) : List InstaItem :=
  _generate_trending_demo_data location

/-- `InstagramScraper._discover_public_real_estate_content`
(`instagram_scraper.py:616-631`).  `api_business` models
`self.api_type == 'business' and self.working_token`. -/
def _discover_public_real_estate_content (api_business : Bool) (location : String)
    (limit : ℕ) : List InstaItem :=
  let explore := if api_business then _explore_real_estate_content location else []
  (explore ++ _discover_trending_real_estate_content location).take limit

/-- `InstagramScraper._generate_enhanced_demo_data` (`instagram_scraper.py:789-908`):
six synthetic posts plus three synthetic comments, truncated to `limit`.
All carry `metadata['demo'] = True`. -/
def _generate_enhanced_demo_data (location : String) (limit : ℕ) : List InstaItem :=
  let demo_posts : List InstaItem :=
    [{ text := "🏠 Amazing 3BHK apartment in " ++ location ++ "! Just visited the site and I\x27m impressed with the construction quality. The locality has excellent connectivity to Hitec City and Gachibowli. Metro line coming soon will boost property values. Perfect investment opportunity! #RealEstate #Hyderabad #" ++ (location.replace " " "") ++ "Property"
       demo := true },
     { text := "Looking for 2-3 BHK in " ++ location ++ " under 1 crore. Heard great things about this area from colleagues. Schools, hospitals, shopping malls all nearby. Traffic to office areas is manageable. Any recent buyers here? Please share your experience! #PropertyHunt #Investment"
       demo := true },
     { text := "🎉 Finally bought our dream home in " ++ location ++ "! After 6 months of searching, found the perfect 3BHK with all amenities. Builder delivery on time, RERA approved project. The area has grown so much in last 2 years. Very happy with our decision! ❤️ #NewHome #DreamsComeTrue"
       demo := true },
     { text := "Traffic situation in " ++ location ++ " getting worse during peak hours 🚗😤 Hope the proposed metro extension gets completed soon. Otherwise it\x27s still a great place - good restaurants, parks, and peaceful residential environment. Weekend life is amazing here! #TrafficWoes #CityLife"
       demo := true },
     { text := "Property prices in " ++ location ++ " increased 20% this year according to my agent friend 📈 Good time to sell if you bought 3-4 years ago. Market very active with IT crowd showing interest. Infrastructure development really paying off! #PropertyMarket #Investment"
       demo := true },
     { text := "New residential project launched in " ++ location ++ " by reputed builder 🏢✨ Visited sample flat today - spacious rooms, premium fittings, and great amenities including gym, pool, kids play area. Pre-launch prices seem reasonable. Considering booking! #NewLaunch #PropertyUpdate"
       demo := true }]
  let demo_comments : List InstaItem :=
    [{ text := "I also live in " ++ location ++ "! Property values definitely going up. Great choice for investment."
       demo := true },
     { text := "Been living in " ++ location ++ " for 5 years. Best decision ever! Infrastructure development is amazing here."
       demo := true },
     { text := "Considering " ++ location ++ " for investment. How\x27s the rental demand there?"
       demo := true }]
  (demo_posts ++ demo_comments).take limit

/-- `InstagramScraper.scrape` (`instagram_scraper.py:286-336`), non-raising
path.  Phases 1-3 (`_search_all_relevant_hashtags`,
`_search_all_business_accounts`, `_search_location_specific_content`)
perform network I/O with their own internal fallbacks; they are abstracted
by the item lists they return.  Phase 4 and phase 5 are deterministic in
the source and are modelled concretely. -/
def scrape (hashtag_results business_results location_results : List InstaItem)
    (api_business : Bool) (query : String) (limit : ℕ) : List InstaItem :=
  let discovery_results := _discover_public_real_estate_content api_business query (limit / 4)
  let results := hashtag_results ++ business_results ++ location_results ++ discovery_results
  let results :=
    if results.length < 10 then
      results ++ _generate_enhanced_demo_data query (min 20 (limit - results.length))
    else
      results
  (_clean_and_deduplicate_results results).take limit

/-! ## Locality resolver (`src/preprocessing/location_extractor.py`) -/

/-- `Config.HYDERABAD_LOCALITIES` (`src/config/config.py:32-43`): the closed
gazetteer of canonical localities, in source order. -/
def HYDERABAD_LOCALITIES : List String :=
  ["Kondapur", "Gachibowli", "Madhapur", "Hitech City", "Financial District",
   "Banjara Hills", "Jubilee Hills", "Kukatpally", "Miyapur", "Begumpet",
   "Secunderabad", "Ameerpet", "Somajiguda", "Abids", "Charminar",
   "Dilsukhnagar", "Uppal", "Kompally", "Bachupally", "Nizampet",
   "Manikonda", "Kokapet", "Nanakramguda", "Raidurg", "Chandanagar",
   "Yellahanka", "Shamshabad", "Patancheru", "Sangareddy", "Medchal",
   "LB Nagar", "Vanasthalipuram", "Hayathnagar", "Ghatkesar", "Keesara",
   "Shamirpet", "Malkajgiri", "Alwal", "Bowenpally", "Trimulgherry",
   "Yapral", "Sainikpuri", "AS Rao Nagar", "ECIL", "Nagole",
   "Boduppal", "Ramanthapur", "Tarnaka", "Himayatnagar", "Narayanguda"]

/-- The `locality_variations` alias dict of
`LocationExtractor.extract_location` (`location_extractor.py:28-49`), in
Python dict iteration order (insertion order; the duplicated key
`'gachibowli'` of the dict literal occupies a single slot). -/
def locality_variations : List (String × String) :=
  [("kondapur", "kondapur"), ("gachi", "gachibowli"), ("gachibowli", "gachibowli"),
   ("madhapur", "madhapur"), ("hitech", "hitech city"), ("hitec", "hitech city"),
   ("banjara", "banjara hills"), ("jubilee", "jubilee hills"),
   ("kukatpally", "kukatpally"), ("miyapur", "miyapur"),
   ("secunderabad", "secunderabad"), ("ameerpet", "ameerpet"),
   ("dilsukhnagar", "dilsukhnagar"), ("uppal", "uppal"), ("kompally", "kompally"),
   ("manikonda", "manikonda"), ("kokapet", "kokapet"),
   ("financial district", "financial district"), ("nanakramguda", "financial district")]

/-- `LocationExtractor.extract_location` (`location_extractor.py:14-60`):
first exact (case-insensitive substring) gazetteer match wins, then the
first alias-table match, else `None`.  The empty string models Python's
falsy-text guard. -/
def extract_location (text : String) : Option String :=
  if text = "" then none
  else
    let text_lower := pyLower text
    match HYDERABAD_LOCALITIES.find? (fun loc => pyIn (pyLower loc) text_lower) with
    | some locality => some locality
    | none =>
      match locality_variations.find? (fun v => pyIn v.1 text_lower) with
      | some v => some v.2
      | none => none

/-! ## Text normalizer (`src/preprocessing/cleaner.py`)

`TextCleaner.clean_text` lowercases, removes URL-like / email-like /
mention-like substrings with `re.sub`, strips non-alphabetic characters,
collapses whitespace, then hands the text to the external `nltk`
tokenizer, stopword list and Porter stemmer.  The three `nltk`
collaborators are oracle parameters (`NltkEnv`); `tokenize = none` models
`word_tokenize` raising (e.g. a missing `punkt` lookup), the only
realizable fault inside the `try` block.  The regex substitutions are
translated as left-to-right scanners that mirror Python's leftmost-match,
greedy `re.sub` semantics. -/

/-- The external `nltk` collaborators of `TextCleaner`. -/
structure NltkEnv where
  tokenize : String → Option (List String)
  stop_words : List String
  stem : String → String

/-- Is a character a non-whitespace character (Python regex `\S`)? -/
def nonspace (c : Char) : Bool := ¬ c.isWhitespace

/-- Does the text at this position start a match of
`http\S+|www\S+|https\S+` (a literal `http` or `www` followed by at least
one non-whitespace character; `https\S+` is subsumed by `http\S+`)? -/
def urlMatch (l : List Char) : Bool :=
  match l with
  | 'h' :: 't' :: 't' :: 'p' :: c :: _ => nonspace c
  | 'w' :: 'w' :: 'w' :: c :: _ => nonspace c
  | _ => false

/-- `re.sub(r'http\S+|www\S+|https\S+', '', text)`: at a match the greedy
`\S+` consumes the rest of the non-whitespace run.  (The scan recurses on
a fuel bounded by the list length so that it is structurally recursive;
each step consumes at least one character, so the fuel never runs out.) -/
def subUrlsAux : ℕ → List Char → List Char
  | 0, _ => []
  | _, [] => []
  | fuel + 1, c :: cs =>
    if urlMatch (c :: cs) then subUrlsAux fuel (cs.dropWhile nonspace)
    else c :: subUrlsAux fuel cs

def subUrls (l : List Char) : List Char := subUrlsAux l.length l

/-- Does the text at this position start a match of `\S+@\S+`?  A match
exists exactly when the maximal non-whitespace run starting here contains
an `@` that is neither its first nor its last character; the greedy match
then covers the whole run. -/
def emailMatch (l : List Char) : Bool :=
  match l with
  | [] => false
  | c :: _ =>
    nonspace c &&
      (let run := l.takeWhile nonspace
       (run.drop 1).dropLast.contains '@')

/-- `re.sub(r'\S+@\S+', '', text)`. -/
def subEmailsAux : ℕ → List Char → List Char
  | 0, _ => []
  | _, [] => []
  | fuel + 1, c :: cs =>
    if emailMatch (c :: cs) then subEmailsAux fuel (cs.dropWhile nonspace)
    else c :: subEmailsAux fuel cs

def subEmails (l : List Char) : List Char := subEmailsAux l.length l

/-- Python regex `\w` on the ASCII text the cleaner produces. -/
def wordChar (c : Char) : Bool := c.isAlphanum || c = '_'

/-- `re.sub(r'[@#]\w+', '', text)`: an `@` or `#` followed by at least one
word character; the greedy `\w+` consumes the maximal word-character run. -/
def subMentionsAux : ℕ → List Char → List Char
  | 0, _ => []
  | _, [] => []
  | fuel + 1, c :: cs =>
    if (c == '@' || c == '#') && (match cs with | c2 :: _ => wordChar c2 | [] => false) then
      subMentionsAux fuel (cs.dropWhile wordChar)
    else c :: subMentionsAux fuel cs

def subMentions (l : List Char) : List Char := subMentionsAux l.length l

/-- `' '.join(text.split())`: collapse whitespace runs to single spaces and
drop leading/trailing whitespace. -/
def collapseWhitespace (s : String) : String :=
  String.intercalate " " (((s.toList.splitOnP (fun c => c.isWhitespace)).map
      String.mk).filter (fun w => w ≠ ""))

/-- The pure normalization prefix of `TextCleaner.clean_text`
(`cleaner.py:33-49`): lowercase, drop URLs, emails and `[@#]\w+` mentions,
keep only letters and whitespace, collapse whitespace. -/
def regex_normalize (text : String) : String :=
  let t := pyLower text
  let t := String.mk (subUrls t.toList)
  let t := String.mk (subEmails t.toList)
  let t := String.mk (subMentions t.toList)
  let t := String.mk (t.toList.filter (fun c => c.isAlpha || c.isWhitespace))
  collapseWhitespace t

/-- `TextCleaner.clean_text` (`cleaner.py:28-63`).  `none` models a Python
`None` argument; the `except` branch returns the *current* value of the
reassigned `text` variable, which at the only realizable fault point
(tokenization) is the regex-normalized text. -/
def clean_text (env : NltkEnv) (text : Option String) : String :=
  match text with
  | none => ""
  | some t =>
    if t = "" then ""
    else
      let normalized := regex_normalize t
      match env.tokenize normalized with
      | none => normalized
      | some tokens =>
        let tokens := tokens.filter
          (fun tok => ¬ (env.stop_words.contains tok) ∧ 2 < pyLen tok)
        let tokens := tokens.map env.stem
        String.intercalate " " tokens

/-! ## Enhanced sentiment analyzer (`src/preprocessing/claude_sentiment_analyzer.py`)

The Anthropic client and the Python `json`/`re` response decoding are the
external collaborators of `EnhancedSentimentAnalyzer`; they are modelled
as oracles.  `ClaudeClientModel.market_response` is the text returned by
`claude_client.messages.create` for the market-analysis prompt built from
a location, and `sentiment_response` the text returned for the
single-text sentiment prompt built from the text, the optional location
and the optional market context.  `JsonModel` models the
`re.search`-plus-`json.loads` decoding of each response (`none` = no JSON
found or a `JSONDecodeError`).  The analyzer's mutable state is its
`sentiment_cache` dict; every result triple below is
`(value, state after the call, number of LLM analysis queries issued)`. -/

/-- The Anthropic client collaborator. -/
structure ClaudeClientModel where
  market_response : String → String
  sentiment_response : String → Option String → Option MarketContext → String

/-- The JSON decoding of LLM responses. -/
structure JsonModel where
  extract_market_json : String → Option MarketContext
  parse_sentiment_json : String → Option SentimentResult

/-- The analyzer object: its client (`None` when no API key) and the
outcome of the `is_configured` live test. -/
structure Analyzer where
  claude_client : Option ClaudeClientModel
  api_works : Bool

/-- `EnhancedSentimentAnalyzer.is_configured`
(`claude_sentiment_analyzer.py:30-58`), abstracting the live test query. -/
def is_configured (a : Analyzer) : Bool :=
  a.claude_client.isSome && a.api_works

/-- The mutable per-instance caches (`self.sentiment_cache`); a Python dict
modelled as an association list where the most recent binding wins. -/
structure AnalyzerState where
  sentiment_cache : List (String × SentimentResult)
deriving Repr

/-- `EnhancedSentimentAnalyzer._get_fallback_market_context`
(`claude_sentiment_analyzer.py:427-439`). -/
def _get_fallback_market_context : MarketContext :=
  { market_sentiment := "Neutral"
    key_trends := ["Real estate market analysis"]
    price_direction := "Stable"
    market_activity := "Medium"
    context_summary := "Market analysis unavailable - using basic assessment"
    price_range := "Price data requires market research"
    investment_outlook := "Neutral"
    risk_factors := ["Market volatility", "Economic factors"]
    growth_drivers := ["Infrastructure development", "Location advantages"] }

/-- Python `text.split('.')`. -/
def pySplitDot (s : String) : List String :=
  (s.toList.splitOnP (fun c => c = '.')).map String.mk

/-- Sentence-classification fold of `_parse_market_analysis_text`
(`claude_sentiment_analyzer.py:395-403`): accumulate trends, growth
drivers and risk factors over the first sentences. -/
def classify_sentences (sentences : List String) :
    List String × List String × List String :=
  sentences.foldl
    (fun acc sentence =>
      let s := pyStrip sentence
      if 20 < pyLen s then
        let sl := pyLower s
        if ["trend", "increasing", "growing", "development"].any (fun w => pyIn w sl) then
          (acc.1 ++ [pyTake 100 s], acc.2.1, acc.2.2)
        else if ["infrastructure", "metro", "connectivity", "growth"].any (fun w => pyIn w sl) then
          (acc.1, acc.2.1 ++ [pyTake 100 s], acc.2.2)
        else if ["risk", "challenge", "concern", "issue"].any (fun w => pyIn w sl) then
          (acc.1, acc.2.1, acc.2.2 ++ [pyTake 100 s])
        else acc
      else acc)
    ([], [], [])

/-- `EnhancedSentimentAnalyzer._parse_market_analysis_text`
(`claude_sentiment_analyzer.py:370-425`): keyword-mining fallback that
structures a free-text response. -/
def _parse_market_analysis_text (text location : String) : MarketContext :=
  let text_lower := pyLower text
  let sentiment_direction : String × String :=
    if ["positive", "bullish", "growing", "strong", "rising"].any
        (fun w => pyIn w text_lower) then ("Positive", "Rising")
    else if ["negative", "bearish", "declining", "weak", "falling"].any
        (fun w => pyIn w text_lower) then ("Negative", "Falling")
    else ("Neutral", "Stable")
  let market_activity : String :=
    if ["high activity", "active", "busy", "strong demand"].any
        (fun w => pyIn w text_lower) then "High"
    else if ["low activity", "slow", "weak demand"].any
        (fun w => pyIn w text_lower) then "Low"
    else "Medium"
  let tgr := classify_sentences ((pySplitDot text).take 10)
  { market_sentiment := sentiment_direction.1
    key_trends :=
      if tgr.1.take 3 = [] then ["Market analysis for " ++ location ++ " completed"]
      else tgr.1.take 3
    price_direction := sentiment_direction.2
    market_activity := market_activity
    context_summary :=
      if 300 < pyLen text then pyTake 300 text ++ "..." else text
    price_range := "Analysis based on current market data"
    investment_outlook := sentiment_direction.1
    risk_factors :=
      if tgr.2.2.take 2 = [] then ["Standard market risks apply"] else tgr.2.2.take 2
    growth_drivers :=
      if tgr.2.1.take 2 = [] then ["Location-specific factors"] else tgr.2.1.take 2 }

/-- `EnhancedSentimentAnalyzer.analyze_market_context`
(`claude_sentiment_analyzer.py:302-368`).  The method reads only
`self.claude_client`; it never touches the caches, so the state is passed
through unchanged.  The result triple's last component counts the LLM
queries this call issues. -/
def analyze_market_context (st : AnalyzerState) (client : Option ClaudeClientModel)
    (jm : JsonModel) (location : String) : MarketContext × AnalyzerState × ℕ :=
  match client with
  | none => (_get_fallback_market_context, st, 0)
  | some c =>
    let response_text := c.market_response location
    match jm.extract_market_json response_text with
    | some analysis => (analysis, st, 1)
    | none => (_parse_market_analysis_text response_text location, st, 1)

/-- The empty-text result of `analyze_sentiment`
(`claude_sentiment_analyzer.py:563-569`). -/
def SENTIMENT_EMPTY : SentimentResult :=
  { sentiment := Sentiment.Neutral
    score := 0
    confidence := 0
    reason := "Empty text"
    analysis_type := "empty" }

/-- Python `f"{location}"` for an `Optional[str]` argument. -/
def pyOptStr : Option String → String
  | none => "None"
  | some s => s

/-- `EnhancedSentimentAnalyzer.analyze_sentiment`
(`claude_sentiment_analyzer.py:561-661`): empty-text guard, cache lookup
keyed by `f"{text[:100]}_{location}"`, fallback when unconfigured, else
one market-context query (when a location is given) plus one sentiment
query, with the JSON-parsed result cached and the text-sniffing
`text_parsed` result not cached. -/
def analyze_sentiment (a : Analyzer) (jm : JsonModel) (st : AnalyzerState)
    (text : String) (location : Option String) :
    SentimentResult × AnalyzerState × ℕ :=
  if pyStrip text = "" then (SENTIMENT_EMPTY, st, 0)
  else
    let cache_key := pyTake 100 text ++ "_" ++ pyOptStr location
    match st.sentiment_cache.lookup cache_key with
    | some cached => (cached, st, 0)
    | none =>
      if ¬ is_configured a then (_fallback_single_analysis text, st, 0)
      else
        match a.claude_client with
        | none => (_fallback_single_analysis text, st, 0)
        | some c =>
          let mc_st_q : Option MarketContext × AnalyzerState × ℕ :=
            match location with
            | some loc =>
              if loc ≠ "" then
                let r := analyze_market_context st (some c) jm loc
                (some r.1, r.2.1, r.2.2)
              else (none, st, 0)
            | none => (none, st, 0)
          let market_context := mc_st_q.1
          let st1 := mc_st_q.2.1
          let q1 := mc_st_q.2.2
          let response_text := c.sentiment_response text location market_context
          match jm.parse_sentiment_json response_text with
          | some result =>
            let result :=
              if market_context.isSome then
                { result with market_context := market_context }
              else result
            (result,
             { st1 with sentiment_cache := (cache_key, result) :: st1.sentiment_cache },
             q1 + 1)
          | none =>
            let rt := pyLower response_text
            let sentiment_score : Sentiment × ℚ :=
              if pyIn "positive" rt then (Sentiment.Positive, 6/10)
              else if pyIn "negative" rt then (Sentiment.Negative, -(6/10))
              else (Sentiment.Neutral, 0)
            ({ sentiment := sentiment_score.1
               score := sentiment_score.2
               confidence := 7/10
               reason := pyTake 200 response_text
               analysis_type := "text_parsed" },
             st1, q1 + 1)

/-- The overall-metrics dictionary of `analyze_combined_data`
(`claude_sentiment_analyzer.py:800-809`). -/
structure OverallMetrics where
  positive_count : ℕ
  negative_count : ℕ
  neutral_count : ℕ
  positive_ratio : ℚ
  negative_ratio : ℚ
  average_sentiment_score : ℚ
  average_confidence : ℚ
  overall_sentiment : Sentiment
deriving DecidableEq, Repr

/-- The aggregation core of `EnhancedSentimentAnalyzer.analyze_combined_data`
(`claude_sentiment_analyzer.py:752-811`): counts, ratios, averages and the
threshold-derived overall sentiment computed from the batch's sentiment
results.  (The surrounding orchestration — flattening the scraped data,
obtaining the market context and the batch results, and the narrative
report — feeds into or wraps around this dictionary without altering it.) -/
def overall_metrics (sentiment_results : List SentimentResult) : OverallMetrics :=
  let total_items := sentiment_results.length
  let positive_count := sentiment_results.countP (fun r => r.sentiment = Sentiment.Positive)
  let negative_count := sentiment_results.countP (fun r => r.sentiment = Sentiment.Negative)
  let neutral_count := total_items - positive_count - negative_count
  let avg_score : ℚ :=
    if total_items > 0 then (sentiment_results.map (fun r => r.score)).sum / total_items
    else 0
  let avg_confidence : ℚ :=
    if total_items > 0 then (sentiment_results.map (fun r => r.confidence)).sum / total_items
    else 0
  { positive_count := positive_count
    negative_count := negative_count
    neutral_count := neutral_count
    positive_ratio := if total_items > 0 then (positive_count : ℚ) / total_items else 0
    negative_ratio := if total_items > 0 then (negative_count : ℚ) / total_items else 0
    average_sentiment_score := avg_score
    average_confidence := avg_confidence
    overall_sentiment :=
      if avg_score > 1/10 then Sentiment.Positive
      else if avg_score < -(1/10) then Sentiment.Negative
      else Sentiment.Neutral }

/-! ## Theorems -/

theorem natAbs_sub_cast_q (p n : ℕ) :
    (((p : ℤ) - (n : ℤ)).natAbs : ℚ) = |(p : ℚ) - (n : ℚ)| := by
  rw [Int.cast_natAbs]
  push_cast
  ring_nf

/-- C1: for every input text, the keyword-count fallback strategy returns a
score in [-0.8, 0.8] equal to `min(0.8, 0.3 + 0.1·posCount)` when positive
keyword hits outnumber negative, `max(-0.8, -0.3 - 0.1·negCount)` when
negative hits outnumber positive and `0` otherwise; its confidence is
`min(0.6, 0.15·|posCount - negCount|)`; and the sentiment label is
`Positive` iff the score exceeds `0.1`, `Negative` iff it is below `-0.1`,
and `Neutral` otherwise. -/
theorem C1_fallback_score_bounds_and_labels (text : String) :
    (-(8/10) ≤ (_fallback_single_analysis text).score ∧
      (_fallback_single_analysis text).score ≤ 8/10) ∧
    (_fallback_single_analysis text).score =
      (if fallback_negative_keywords.countP (fun w => pyIn w (pyLower text)) <
          fallback_positive_keywords.countP (fun w => pyIn w (pyLower text)) then
        min (8/10 : ℚ) (3/10 + (1/10) *
          (fallback_positive_keywords.countP (fun w => pyIn w (pyLower text)) : ℚ))
      else if fallback_positive_keywords.countP (fun w => pyIn w (pyLower text)) <
          fallback_negative_keywords.countP (fun w => pyIn w (pyLower text)) then
        max (-(8/10) : ℚ) (-(3/10) - (1/10) *
          (fallback_negative_keywords.countP (fun w => pyIn w (pyLower text)) : ℚ))
      else 0) ∧
    (_fallback_single_analysis text).confidence =
      min (6/10 : ℚ) ((15/100) *
        |(fallback_positive_keywords.countP (fun w => pyIn w (pyLower text)) : ℚ) -
         (fallback_negative_keywords.countP (fun w => pyIn w (pyLower text)) : ℚ)|) ∧
    ((_fallback_single_analysis text).sentiment = Sentiment.Positive ↔
      1/10 < (_fallback_single_analysis text).score) ∧
    ((_fallback_single_analysis text).sentiment = Sentiment.Negative ↔
      (_fallback_single_analysis text).score < -(1/10)) ∧
    ((_fallback_single_analysis text).sentiment = Sentiment.Neutral ↔
      ¬ (1/10 < (_fallback_single_analysis text).score) ∧
      ¬ ((_fallback_single_analysis text).score < -(1/10))) := by
  simp only [_fallback_single_analysis]
  set p := fallback_positive_keywords.countP (fun w => pyIn w (pyLower text)) with hp
  set n := fallback_negative_keywords.countP (fun w => pyIn w (pyLower text)) with hn
  have hconf : pyMin (6/10) ((((p : ℤ) - (n : ℤ)).natAbs : ℚ) * (15/100))
      = min (6/10 : ℚ) ((15/100) * |(p : ℚ) - (n : ℚ)|) := by
    rw [pyMin_eq_min, natAbs_sub_cast_q, mul_comm]
  rcases Nat.lt_trichotomy p n with h | h | h
  · -- negative keywords outnumber positive
    have hnp : ¬ (p > n) := by omega
    have hn1 : (1 : ℚ) ≤ (n : ℚ) := by exact_mod_cast Nat.one_le_iff_ne_zero.mpr (by omega)
    simp only [if_neg hnp, if_pos h, hconf, pyMax_eq_max]
    have hscore_lt : max (-(8/10) : ℚ) (-(3/10) - (n : ℚ) * (1/10)) < -(1/10) := by
      apply max_lt (by norm_num)
      nlinarith
    refine ⟨⟨le_max_left _ _, ?_⟩, ?_, ?_, ?_, ?_, ?_⟩
    · apply max_le (by norm_num)
      nlinarith
    · ring_nf
    · first
      | rfl
      | trivial
    · constructor
      · intro hc
        exact absurd hc (by simp)
      · intro hc
        exact absurd hc (by linarith [hscore_lt])
    · simp only [true_iff]
      exact hscore_lt
    · constructor
      · intro hc
        exact absurd hc (by simp)
      · intro hc
        exact absurd hscore_lt hc.2
  · -- tie: neutral
    have h1 : ¬ (p > n) := by omega
    have h2 : ¬ (n > p) := by omega
    simp only [if_neg h1, if_neg h2, hconf]
    refine ⟨⟨by norm_num, by norm_num⟩, ?_, ?_, ?_, ?_, ?_⟩
    · first
      | rfl
      | trivial
    · first
      | rfl
      | trivial
    · constructor
      · intro hc
        exact absurd hc (by simp)
      · intro hc
        exact absurd hc (by norm_num)
    · constructor
      · intro hc
        exact absurd hc (by simp)
      · intro hc
        exact absurd hc (by norm_num)
    · simp only [true_iff]
      norm_num
  · -- positive keywords outnumber negative
    have hpn : p > n := h
    have hp1 : (1 : ℚ) ≤ (p : ℚ) := by exact_mod_cast Nat.one_le_iff_ne_zero.mpr (by omega)
    simp only [if_pos hpn, hconf, pyMin_eq_min]
    have hscore_gt : (1/10 : ℚ) < min (8/10 : ℚ) (3/10 + (p : ℚ) * (1/10)) := by
      apply lt_min (by norm_num)
      nlinarith
    refine ⟨⟨?_, min_le_left _ _⟩, ?_, ?_, ?_, ?_, ?_⟩
    · apply le_min (by norm_num)
      nlinarith
    · ring_nf
    · first
      | rfl
      | trivial
    · simp only [true_iff]
      exact hscore_gt
    · constructor
      · intro hc
        exact absurd hc (by simp)
      · intro hc
        exact absurd hc (by linarith [hscore_gt])
    · constructor
      · intro hc
        exact absurd hc (by simp)
      · intro hc
        exact absurd hscore_gt hc.1

/-- C7 counterexample: on `"Overpriced, risky, declining market, avoid"`
the keyword fallback counts exactly 4 negative hits and 0 positive hits,
so its score is `-0.3 - 4·0.1 = -0.7`, strictly above the `-0.8` clamp the
claim asserts (the clamp is reached only from 5 negative hits on). -/
theorem C7_counterexample :
    (_fallback_single_analysis "Overpriced, risky, declining market, avoid").score
      ≠ -(8/10) := by
  have hp : fallback_positive_keywords.countP
      (fun w => pyIn w (pyLower "Overpriced, risky, declining market, avoid")) = 0 := by
    decide
  have hn : fallback_negative_keywords.countP
      (fun w => pyIn w (pyLower "Overpriced, risky, declining market, avoid")) = 4 := by
    decide
  simp only [_fallback_single_analysis, hp, hn]
  norm_num [pyMax]

/-- C7 amended: on `"Overpriced, risky, declining market, avoid"` the
keyword fallback counts 4 negative hits (so at least 4) and returns
`sentiment = Negative` with score `-0.7`; the `-0.8` clamp is not reached
on this input. -/
theorem C7_fallback_negative_scenario :
    fallback_negative_keywords.countP
      (fun w => pyIn w (pyLower "Overpriced, risky, declining market, avoid")) = 4 ∧
    (_fallback_single_analysis "Overpriced, risky, declining market, avoid").sentiment
      = Sentiment.Negative ∧
    (_fallback_single_analysis "Overpriced, risky, declining market, avoid").score
      = -(7/10) := by
  have hp : fallback_positive_keywords.countP
      (fun w => pyIn w (pyLower "Overpriced, risky, declining market, avoid")) = 0 := by
    decide
  have hn : fallback_negative_keywords.countP
      (fun w => pyIn w (pyLower "Overpriced, risky, declining market, avoid")) = 4 := by
    decide
  refine ⟨hn, ?_, ?_⟩
  · simp [_fallback_single_analysis, hp, hn]
  · simp only [_fallback_single_analysis, hp, hn]
    norm_num [pyMax]

theorem is_location_relevant_spec {t : String}
    (h : _is_location_relevant t "hyderabad" = true) :
    pyIn "hyderabad" (pyLower t) = true ∨
      (real_estate_keywords.any (fun k => pyIn k (pyLower t)) = true ∧
       hyderabad_keywords.any (fun k => pyIn k (pyLower t)) = true) := by
  unfold _is_location_relevant at h
  by_cases ht : t = ""
  · simp [ht] at h
  · rw [if_neg ht] at h
    simp only at h
    by_cases hd : pyIn (pyLower "hyderabad") (pyLower t) = true
    · left
      have hlow : pyLower "hyderabad" = "hyderabad" := rfl
      rwa [hlow] at hd
    · rw [if_neg hd] at h
      right
      rw [Bool.and_eq_true] at h
      exact h

theorem mem_cleanDedupAux {rs : List InstaItem} {seen : List String} {x : InstaItem}
    (hx : x ∈ cleanDedupAux rs seen) :
    15 < pyLen (pyStrip x.text) ∧ _is_location_relevant x.text "hyderabad" = true := by
  induction rs generalizing seen with
  | nil => simp [cleanDedupAux] at hx
  | cons r rest ih =>
    simp only [cleanDedupAux] at hx
    split at hx
    · rename_i hcond
      rcases List.mem_cons.mp hx with h | h
      · subst h
        exact ⟨hcond.1, hcond.2.2⟩
      · exact ih h
    · exact ih hx

/-- C2 counterexample: an item whose text mentions the queried location
(`"hyderabad"`) but contains no real-estate keyword is *accepted* by the
filter, because `_is_location_relevant` returns `True` on a direct
location mention before ever testing the keyword conjunction. -/
theorem C2_counterexample :
    _clean_and_deduplicate_results
        [{ text := "hyderabad is so lovely these days, wonderful weather in the city",
           demo := false }] =
      [{ text := "hyderabad is so lovely these days, wonderful weather in the city",
         demo := false }] ∧
    real_estate_keywords.any
        (fun k => pyIn k (pyLower
          "hyderabad is so lovely these days, wonderful weather in the city")) = false := by
  constructor
  · decide
  · decide

/-- C2 amended: every item accepted by `_clean_and_deduplicate_results`
has more than 15 non-whitespace-trimmed characters and either mentions
`"hyderabad"` directly, or contains at least one real-estate keyword and
at least one Hyderabad-context keyword; the strict conjunction of the
claim only governs items without a direct location mention. -/
theorem C2_relevance_of_accepted (results : List InstaItem) (x : InstaItem)
    (hx : x ∈ _clean_and_deduplicate_results results) :
    15 < pyLen (pyStrip x.text) ∧
    (pyIn "hyderabad" (pyLower x.text) = true ∨
      (real_estate_keywords.any (fun k => pyIn k (pyLower x.text)) = true ∧
       hyderabad_keywords.any (fun k => pyIn k (pyLower x.text)) = true)) := by
  have hx' : x ∈ cleanDedupAux results [] := hx
  have h := mem_cleanDedupAux hx'
  exact ⟨h.1, is_location_relevant_spec h.2⟩

/-- C2 witness: the amended theorem applied to a concrete accepted item. -/
theorem C2_relevance_of_accepted_witness :
    15 < pyLen (pyStrip "flats for sale in kondapur hyderabad") ∧
    (pyIn "hyderabad" (pyLower "flats for sale in kondapur hyderabad") = true ∨
      (real_estate_keywords.any
          (fun k => pyIn k (pyLower "flats for sale in kondapur hyderabad")) = true ∧
       hyderabad_keywords.any
          (fun k => pyIn k (pyLower "flats for sale in kondapur hyderabad")) = true)) :=
  C2_relevance_of_accepted
    [{ text := "flats for sale in kondapur hyderabad", demo := false }]
    { text := "flats for sale in kondapur hyderabad", demo := false }
    (by decide)

theorem cleanDedupAux_hash_not_seen {rs : List InstaItem} {seen : List String}
    {x : InstaItem} (hx : x ∈ cleanDedupAux rs seen) :
    ¬ (seen.contains (content_hash x.text) = true) := by
  induction rs generalizing seen with
  | nil => simp [cleanDedupAux] at hx
  | cons r rest ih =>
    simp only [cleanDedupAux] at hx
    split at hx
    · rename_i hcond
      rcases List.mem_cons.mp hx with h | h
      · subst h
        exact hcond.2.1
      · intro hmem
        apply ih h
        simp only [List.contains_cons, Bool.or_eq_true]
        right
        exact hmem
    · exact ih hx

theorem cleanDedupAux_pairwise (rs : List InstaItem) (seen : List String) :
    List.Pairwise (fun a b => content_hash a.text ≠ content_hash b.text)
      (cleanDedupAux rs seen) := by
  induction rs generalizing seen with
  | nil => simp [cleanDedupAux]
  | cons r rest ih =>
    simp only [cleanDedupAux]
    split
    · rename_i hcond
      refine List.Pairwise.cons ?_ (ih _)
      intro y hy heq
      have hns := cleanDedupAux_hash_not_seen hy
      apply hns
      simp [List.contains_cons, heq]
    · exact ih _

/-- C3: the relevance-and-deduplication filter never emits two items whose
150-character lowercased text prefixes are equal — once an item with a
given prefix has been emitted, its `lower().strip()` hash is in the seen
set and every later item with an equal prefix is rejected. -/
theorem C3_no_equal_prefixes (results : List InstaItem) :
    List.Pairwise
      (fun a b => pyLower (pyTake 150 a.text) ≠ pyLower (pyTake 150 b.text))
      (_clean_and_deduplicate_results results) := by
  refine List.Pairwise.imp ?_ (cleanDedupAux_pairwise results [])
  intro a b hab heq
  apply hab
  rw [content_hash, content_hash, heq]

def c4_client : ClaudeClientModel :=
  { market_response := fun _ => "no structured data here"
    sentiment_response := fun _ _ _ => "" }

def c4_jm : JsonModel :=
  { extract_market_json := fun _ => none
    parse_sentiment_json := fun _ => none }

/-- C4 counterexample: with a configured client, two successive
`analyze_market_context` calls for the *same* location each issue an LLM
query — the second call does not return a cached result without querying,
because the method maintains no cache at all. -/
theorem C4_counterexample :
    (analyze_market_context ⟨[]⟩ (some c4_client) c4_jm "gachibowli").2.2 = 1 ∧
    (analyze_market_context
        (analyze_market_context ⟨[]⟩ (some c4_client) c4_jm "gachibowli").2.1
        (some c4_client) c4_jm "gachibowli").2.2 = 1 := by
  exact ⟨rfl, rfl⟩

/-- C4 amended: `analyze_market_context` performs no per-location caching:
with a configured client every call — including repeated calls for the
same location in one run — issues exactly one LLM query and leaves the
analyzer's caches unchanged; without a client it returns the fixed
neutral context and issues no query.  Repeated market-context queries are
avoided only indirectly, when `analyze_sentiment` hits its sentiment
cache before reaching the market-context step. -/
theorem C4_market_context_uncached (st : AnalyzerState) (client : ClaudeClientModel)
    (jm : JsonModel) (location : String) :
    (analyze_market_context st (some client) jm location).2.1 = st ∧
    (analyze_market_context st (some client) jm location).2.2 = 1 ∧
    analyze_market_context st none jm location = (_get_fallback_market_context, st, 0) := by
  rcases h : jm.extract_market_json (client.market_response location) with _ | a <;>
    simp [analyze_market_context, h]

def c5_real_items : List InstaItem :=
  [{ text := "hyderabad property market update number one", demo := false },
   { text := "hyderabad property market update number two", demo := false },
   { text := "hyderabad property market update number three", demo := false },
   { text := "hyderabad property market update number four", demo := false },
   { text := "hyderabad property market update number five", demo := false },
   { text := "hyderabad property market update number six", demo := false },
   { text := "hyderabad property market update number seven", demo := false },
   { text := "hyderabad property market update number eight", demo := false },
   { text := "hyderabad property market update number nine", demo := false },
   { text := "hyderabad property market update number ten", demo := false }]

set_option maxRecDepth 100000 in
/-- C5 counterexample: ten real (non-demo) items from phase 1 put the run
above the 10-item floor, yet a synthetic demo item still appears in the
scrape result, because phase 4 (`_discover_public_real_estate_content`)
unconditionally synthesizes a trending demo post. -/
theorem C5_counterexample :
    10 ≤ c5_real_items.length ∧
    (∀ x ∈ c5_real_items, x.demo = false) ∧
    ∃ y ∈ scrape c5_real_items [] [] false "kondapur" 200, y.demo = true := by
  refine ⟨by decide, by decide, ?_⟩
  refine ⟨{ text := "🔥 Trending: kondapur real estate market showing strong growth! Prices up 15% YoY. Infrastructure development attracting investors. Metro connectivity boosting demand significantly.", demo := true }, ?_, rfl⟩
  decide

theorem cleanDedupAux_subset {rs : List InstaItem} {seen : List String} {x : InstaItem}
    (hx : x ∈ cleanDedupAux rs seen) : x ∈ rs := by
  induction rs generalizing seen with
  | nil => simp [cleanDedupAux] at hx
  | cons r rest ih =>
    simp only [cleanDedupAux] at hx
    split at hx
    · rcases List.mem_cons.mp hx with h | h
      · exact h ▸ List.mem_cons_self r rest
      · exact List.mem_cons_of_mem r (ih h)
    · exact List.mem_cons_of_mem r (ih hx)

/-- C5 amended: the phase-5 *enhanced* demo generator
(`_generate_enhanced_demo_data`) runs only when fewer than 10 items were
collected after all four phases, so with at least 10 items every scraped
item comes from the four phases themselves; however the four phases are
not demo-free — phase 4 unconditionally contributes a synthetic trending
post (and phases 1-3 have their own per-hashtag/per-account demo
fallbacks), so "at least 10 real items" does not keep synthetic content
out of the result. -/
theorem C5_no_enhanced_demo_when_enough (p1 p2 p3 : List InstaItem) (ab : Bool)
    (query : String) (limit : ℕ)
    (h : 10 ≤ (p1 ++ p2 ++ p3 ++
      _discover_public_real_estate_content ab query (limit / 4)).length) :
    ∀ x ∈ scrape p1 p2 p3 ab query limit,
      x ∈ p1 ++ p2 ++ p3 ++ _discover_public_real_estate_content ab query (limit / 4) := by
  intro x hx
  simp only [scrape] at hx
  rw [if_neg (by omega)] at hx
  exact cleanDedupAux_subset (List.mem_of_mem_take hx)

set_option maxRecDepth 100000 in
/-- C5 witness: the amended theorem applied to a concrete run with ten
phase-1 items and a concrete member of the scrape result. -/
theorem C5_no_enhanced_demo_when_enough_witness :
    { text := "hyderabad property market update number one", demo := false } ∈
      c5_real_items ++ [] ++ [] ++
        _discover_public_real_estate_content false "kondapur" (200 / 4) :=
  C5_no_enhanced_demo_when_enough c5_real_items [] [] false "kondapur" 200 (by decide)
    { text := "hyderabad property market update number one", demo := false } (by decide)

/-- An `nltk` environment whose tokenizer always raises. -/
def c6_env_fail : NltkEnv :=
  { tokenize := fun _ => none
    stop_words := []
    stem := id }

/-- C6 counterexample: when tokenization faults, `clean_text` does *not*
return the original input unchanged — the `text` variable has already
been reassigned by the normalization steps, so the `except` branch
returns the lowercased, regex-normalized text (`"ab"` for input
`"AB."`). -/
theorem C6_counterexample :
    clean_text c6_env_fail (some "AB.") = "ab" ∧
    clean_text c6_env_fail (some "AB.") ≠ "AB." := by
  constructor
  · decide
  · decide

/-- C6 amended: `clean_text` is total (never raises) and always returns a
string; `None` or empty input yields the empty string; and on an internal
fault — realizable only at tokenization — it returns the regex-normalized
lowercased text accumulated up to the fault, which coincides with the
original input only when normalization has not changed it. -/
theorem C6_clean_text_total_empty_fault (env : NltkEnv) (t : String)
    (hfault : env.tokenize (regex_normalize t) = none) :
    clean_text env none = "" ∧
    clean_text env (some "") = "" ∧
    clean_text env (some t) = regex_normalize t := by
  refine ⟨rfl, rfl, ?_⟩
  simp only [clean_text]
  by_cases ht : t = ""
  · subst ht
    rw [if_pos rfl]
    decide
  · rw [if_neg ht]
    simp only [hfault]

/-- C6 witness: the amended theorem at a concrete faulting environment and
input. -/
theorem C6_clean_text_total_empty_fault_witness :
    clean_text c6_env_fail none = "" ∧
    clean_text c6_env_fail (some "") = "" ∧
    clean_text c6_env_fail (some "AB.") = regex_normalize "AB." :=
  C6_clean_text_total_empty_fault c6_env_fail "AB." rfl

/-- C8: on a batch of 10 sentiment results with 6 Positive, 2 Negative
(hence 2 Neutral) and scores summing to 3, the aggregation step computes
average score 0.3, positive ratio 0.6, negative ratio 0.2, neutral count
2, and overall sentiment Positive (0.3 exceeds the 0.1 threshold). -/
theorem C8_aggregation_metrics (rs : List SentimentResult)
    (hlen : rs.length = 10)
    (hpos : rs.countP (fun r => r.sentiment = Sentiment.Positive) = 6)
    (hneg : rs.countP (fun r => r.sentiment = Sentiment.Negative) = 2)
    (hsum : (rs.map (fun r => r.score)).sum = 3) :
    (overall_metrics rs).average_sentiment_score = 3/10 ∧
    (overall_metrics rs).positive_ratio = 6/10 ∧
    (overall_metrics rs).negative_ratio = 2/10 ∧
    (overall_metrics rs).neutral_count = 2 ∧
    (overall_metrics rs).overall_sentiment = Sentiment.Positive := by
  unfold overall_metrics
  simp only [hlen, hpos, hneg, hsum]
  norm_num

def c8_results : List SentimentResult :=
  [{ sentiment := Sentiment.Positive, score := 1, confidence := 1, reason := "", analysis_type := "fallback" },
   { sentiment := Sentiment.Positive, score := 1, confidence := 1, reason := "", analysis_type := "fallback" },
   { sentiment := Sentiment.Positive, score := 1, confidence := 1, reason := "", analysis_type := "fallback" },
   { sentiment := Sentiment.Positive, score := 0, confidence := 0, reason := "", analysis_type := "fallback" },
   { sentiment := Sentiment.Positive, score := 0, confidence := 0, reason := "", analysis_type := "fallback" },
   { sentiment := Sentiment.Positive, score := 0, confidence := 0, reason := "", analysis_type := "fallback" },
   { sentiment := Sentiment.Negative, score := 0, confidence := 0, reason := "", analysis_type := "fallback" },
   { sentiment := Sentiment.Negative, score := 0, confidence := 0, reason := "", analysis_type := "fallback" },
   { sentiment := Sentiment.Neutral, score := 0, confidence := 0, reason := "", analysis_type := "fallback" },
   { sentiment := Sentiment.Neutral, score := 0, confidence := 0, reason := "", analysis_type := "fallback" }]

/-- C8 witness: the aggregation theorem at a concrete batch. -/
theorem C8_aggregation_metrics_witness :
    (overall_metrics c8_results).average_sentiment_score = 3/10 ∧
    (overall_metrics c8_results).positive_ratio = 6/10 ∧
    (overall_metrics c8_results).negative_ratio = 2/10 ∧
    (overall_metrics c8_results).neutral_count = 2 ∧
    (overall_metrics c8_results).overall_sentiment = Sentiment.Positive :=
  C8_aggregation_metrics c8_results (by decide) (by decide) (by decide)
    (by norm_num [c8_results])

/-- C9: the locality resolver maps `"Great flats near Hitec city"` — which
matches no gazetteer entry exactly — to the canonical `"hitech city"` via
the alias table, and returns `None` on any text that matches neither the
gazetteer nor the alias table. -/
theorem C9_extract_location_alias_and_none :
    extract_location "Great flats near Hitec city" = some "hitech city" ∧
    ∀ text : String,
      (∀ loc ∈ HYDERABAD_LOCALITIES, pyIn (pyLower loc) (pyLower text) = false) →
      (∀ v ∈ locality_variations, pyIn v.1 (pyLower text) = false) →
      extract_location text = none := by
  constructor
  · decide
  · intro text h1 h2
    unfold extract_location
    by_cases ht : text = ""
    · rw [if_pos ht]
    · rw [if_neg ht]
      have hfind1 : HYDERABAD_LOCALITIES.find?
          (fun loc => pyIn (pyLower loc) (pyLower text)) = none := by
        rw [List.find?_eq_none]
        intro loc hloc
        simp [h1 loc hloc]
      have hfind2 : locality_variations.find?
          (fun v => pyIn v.1 (pyLower text)) = none := by
        rw [List.find?_eq_none]
        intro v hv
        simp [h2 v hv]
      simp only [hfind1, hfind2]

/-- C9 witness: the no-match branch at a concrete text. -/
theorem C9_extract_location_witness :
    extract_location "zzz" = none :=
  C9_extract_location_alias_and_none.2 "zzz" (by decide) (by decide)

def c10_parsed_result : SentimentResult :=
  { sentiment := Sentiment.Positive
    score := 1
    confidence := 1
    reason := "parsed"
    analysis_type := "comprehensive" }

def c10_client : ClaudeClientModel :=
  { market_response := fun _ => ""
    sentiment_response := fun _ _ _ => "resp" }

def c10_jm : JsonModel :=
  { extract_market_json := fun _ => none
    parse_sentiment_json := fun _ => some c10_parsed_result }

def c10_analyzer : Analyzer :=
  { claude_client := some c10_client
    api_works := true }

/-- 100 spaces followed by `"a"`: a non-blank text. -/
def c10_text_long : String := String.mk (List.replicate 100 ' ') ++ "a"

/-- 100 spaces: a whitespace-only text sharing `c10_text_long`'s first 100
characters. -/
def c10_text_blank : String := String.mk (List.replicate 100 ' ')

set_option maxRecDepth 100000 in
/-- C10 counterexample: the two texts agree on their first 100 characters
and the first call caches its comprehensive result under that prefix, yet
a later call with the second (whitespace-only) text returns the fixed
empty-text result instead of the cached result of the first — the
blank-text guard fires before the cache lookup. -/
theorem C10_counterexample :
    pyTake 100 c10_text_long = pyTake 100 c10_text_blank ∧
    (analyze_sentiment c10_analyzer c10_jm ⟨[]⟩ c10_text_long
        (some "kondapur")).2.1.sentiment_cache.lookup
        (pyTake 100 c10_text_blank ++ "_" ++ pyOptStr (some "kondapur"))
      = some (analyze_sentiment c10_analyzer c10_jm ⟨[]⟩ c10_text_long
          (some "kondapur")).1 ∧
    (analyze_sentiment c10_analyzer c10_jm
        (analyze_sentiment c10_analyzer c10_jm ⟨[]⟩ c10_text_long
          (some "kondapur")).2.1
        c10_text_blank (some "kondapur")).1.sentiment = Sentiment.Neutral ∧
    (analyze_sentiment c10_analyzer c10_jm ⟨[]⟩ c10_text_long
        (some "kondapur")).1.sentiment = Sentiment.Positive := by
  refine ⟨rfl, rfl, rfl, rfl⟩

/-- C10 amended: the cache key of `analyze_sentiment` is
`text[:100] + "_" + location`, so for any two texts agreeing on their
first 100 characters and the same location, once a result has been cached
under that key a later call with the other text returns the cached result
with no new analysis query and no state change — provided the later text
is not empty or whitespace-only (blank texts short-circuit to the fixed
empty-text result without consulting the cache). -/
theorem C10_cache_key_sharing (a : Analyzer) (jm : JsonModel) (st : AnalyzerState)
    (text1 text2 : String) (location : Option String) (r : SentimentResult)
    (hpre : pyTake 100 text1 = pyTake 100 text2)
    (hblank : pyStrip text2 ≠ "")
    (hcache : st.sentiment_cache.lookup
        (pyTake 100 text1 ++ "_" ++ pyOptStr location) = some r) :
    analyze_sentiment a jm st text2 location = (r, st, 0) := by
  rw [hpre] at hcache
  unfold analyze_sentiment
  rw [if_neg hblank]
  simp only [hcache]

def c10_w_text1 : String := String.mk (List.replicate 100 'a') ++ "b"

def c10_w_text2 : String := String.mk (List.replicate 100 'a') ++ "c"

def c10_w_result : SentimentResult :=
  { sentiment := Sentiment.Positive
    score := 1
    confidence := 1
    reason := "cached"
    analysis_type := "comprehensive" }

def c10_w_st : AnalyzerState :=
  { sentiment_cache :=
      [(pyTake 100 c10_w_text1 ++ "_" ++ pyOptStr (some "kondapur"), c10_w_result)] }

set_option maxRecDepth 100000 in
/-- C10 witness: the amended theorem at two concrete 101-character texts
sharing their first 100 characters. -/
theorem C10_cache_key_sharing_witness :
    analyze_sentiment c10_analyzer c10_jm c10_w_st c10_w_text2 (some "kondapur")
      = (c10_w_result, c10_w_st, 0) :=
  C10_cache_key_sharing c10_analyzer c10_jm c10_w_st c10_w_text1 c10_w_text2
    (some "kondapur") c10_w_result (by decide) (by decide) (by decide)
